import Mathlib

/-!
Verification of the esp32_wifi_manager connection/provisioning orchestrator.

The definitions below are a shallow embedding of the C sources:
  * `src/src/wifi_manager_core.c`   — event handler, status updates, timeout timer callback
  * `src/src/wifi_manager_scan.c`   — scan task (start / complete notifications)
  * `src/src/wifi_manager_config.c` — configuration parameter store (set / save / load)
  * `wifi_manager_api.c`            — config portal controller (wait loop, timer cleanup)
  * `wifi_manager_web.c`            — network list production (dedup, sort, quality)

Machine integers are modelled as `Int`/`Nat`; the C paths proved about never
overflow within the stated hypotheses. Fallible operations return `Option`
or `Except`. Stateful code is explicit state passing.
-/

set_option maxRecDepth 8192

namespace WifiMgr

/-- `wifi_status_t` from `wifi_manager.h`. `configPortal` is the spec's
`PortalActive`, `apMode` is the spec's `ApMode`. -/
inductive WifiStatus where
  | disconnected
  | connecting
  | connected
  | apMode
  | configPortal
  | failed
deriving DecidableEq, Repr

/-- `WIFI_MANAGER_MAX_RETRY` from `wifi_manager_private.h`. -/
def maxRetry : Int := 3

/-! ## Core state machine (`wifi_manager_core.c`) -/

/-- The slice of `wifi_manager_t` state touched by the retry logic of
`wifi_event_handler`: `current_status` and `retry_count` (an `int` in C,
modelled as `Int`). -/
structure CoreState where
  status : WifiStatus
  retry_count : Int
deriving DecidableEq, Repr

/-- The `WIFI_EVENT_STA_DISCONNECTED` branch of `wifi_event_handler`
(`wifi_manager_core.c`): increment `retry_count`; if still below
`WIFI_MANAGER_MAX_RETRY`, call `esp_wifi_connect()` and set status to
`CONNECTING`; otherwise set status to `DISCONNECTED` and reset the counter.
The returned `Bool` records whether `esp_wifi_connect()` was issued. -/
def handleStaDisconnected (s : CoreState) : CoreState × Bool :=
  let rc := s.retry_count + 1
  if rc < maxRetry then
    ({ status := WifiStatus.connecting, retry_count := rc }, true)
  else
    ({ status := WifiStatus.disconnected, retry_count := 0 }, false)

/-- The `IP_EVENT_STA_GOT_IP` branch of `wifi_event_handler`: reset
`retry_count` to zero and set status to `CONNECTED`. -/
def handleGotIp (_s : CoreState) : CoreState :=
  { status := WifiStatus.connected, retry_count := 0 }

/-- Iterated disconnect events starting from a given state. -/
def discIter : Nat → CoreState → CoreState
  | 0, s => s
  | n + 1, s => discIter n (handleStaDisconnected s).1

/-- Initial state of the retry scenario: status `CONNECTING`, counter zero. -/
def connectingZero : CoreState :=
  { status := WifiStatus.connecting, retry_count := 0 }

/-! ## Scan coordinator (`wifi_manager_scan.c`) -/

/-- `wifi_auth_mode_t` values that `wifi_list_handler` distinguishes. -/
inductive AuthMode where
  | authOpen
  | wep
  | wpaPsk
  | wpa2Psk
  | wpaWpa2Psk
  | wpa3Psk
  | wpa2Wpa3Psk
  | other
deriving DecidableEq, Repr

/-- `scanned_network_t` from `wifi_manager_private.h`. -/
structure ScanRecord where
  ssid : String
  rssi : Int
  authmode : AuthMode
  is_hidden : Bool
deriving DecidableEq, Repr

/-- `MAX_SCANNED_NETWORKS` from `wifi_manager_private.h`. -/
def maxScannedNetworks : Nat := 20

/-- `wifi_mode_t` values relevant to the scan eligibility check. -/
inductive WifiMode where
  | sta
  | ap
  | apsta
  | nullMode
deriving DecidableEq, Repr

/-- The scan-related slice of `wifi_manager_t`: the completion flag and the
effective record batch. In C the batch is a fixed array plus
`scanned_count`; the first `scanned_count` entries form the visible batch,
modelled here as the list `scanned_networks`. -/
structure ScanState where
  scan_completed : Bool
  scanned_networks : List ScanRecord
deriving DecidableEq, Repr

/-- The two task notifications handled by `wifi_scan_task`, each bundled
with the driver responses the task observes while handling it:
for `start`, the current status, the result of `esp_wifi_get_mode`
(`none` = error), and whether `esp_wifi_scan_start` succeeds; for
`complete`, the result of `esp_wifi_scan_get_ap_records`
(`none` = error). -/
inductive ScanNotif where
  | start (status : WifiStatus) (modeRes : Option WifiMode) (startOk : Bool)
  | complete (fetched : Option (List ScanRecord))
deriving DecidableEq, Repr

/-- One iteration of the `wifi_scan_task` loop body
(`wifi_manager_scan.c`). On `start`: skip when already connected; when the
mode query succeeds and the mode is `APSTA` or `STA`, reset the scan state
and issue the scan, marking complete if the scan fails to start; otherwise
(wrong mode or mode-query error) only set the completion flag. On
`complete`: on fetch error zero the count and set the flag; on success copy
up to `MAX_SCANNED_NETWORKS` records and set the flag. -/
def scanStep (s : ScanState) : ScanNotif → ScanState
  | ScanNotif.start status modeRes startOk =>
    if status = WifiStatus.connected then s
    else
      match modeRes with
      | some m =>
        if m = WifiMode.apsta ∨ m = WifiMode.sta then
          if startOk then
            { scan_completed := false, scanned_networks := [] }
          else
            { scan_completed := true, scanned_networks := [] }
        else
          { s with scan_completed := true }
      | none => { s with scan_completed := true }
  | ScanNotif.complete fetched =>
    match fetched with
    | none => { s with scan_completed := true, scanned_networks := [] }
    | some recs =>
        { scan_completed := true, scanned_networks := recs.take maxScannedNetworks }

/-- A scan state holding one stale record, as left by an earlier completed
scan. -/
def staleScanState : ScanState :=
  { scan_completed := true,
    scanned_networks :=
      [{ ssid := "HomeNet", rssi := -70, authmode := AuthMode.wpa2Psk,
         is_hidden := false }] }

/-! ## Signal-quality mapping (`wifi_list_handler`, `wifi_manager_web.c`) -/

/-- The RSSI → quality-percentage if-chain in the third pass of
`wifi_list_handler`. -/
def signalQuality (rssi : Int) : Int :=
  if rssi ≥ -50 then 100
  else if rssi ≥ -60 then 90
  else if rssi ≥ -70 then 70
  else if rssi ≥ -80 then 50
  else if rssi ≥ -90 then 25
  else 10

/-! ## Network selection algorithm (`wifi_list_handler`, `wifi_manager_web.c`) -/

/-- The skip condition of the first pass of `wifi_list_handler`:
`strlen(current_ssid) == 0 || is_hidden`. -/
def skippedRec (r : ScanRecord) : Prop :=
  r.ssid = "" ∨ r.is_hidden = true

instance (r : ScanRecord) : Decidable (skippedRec r) := by
  unfold skippedRec; infer_instance

/-- The duplicate-SSID branch of the first pass: the first entry of the
unique list with the same SSID is replaced when the new record's RSSI is
strictly greater. -/
def updateStronger : List ScanRecord → ScanRecord → List ScanRecord
  | [], _ => []
  | u :: rest, r =>
    if u.ssid = r.ssid then
      (if r.rssi > u.rssi then r else u) :: rest
    else
      u :: updateStronger rest r

/-- One iteration of the first pass of `wifi_list_handler`: skip hidden and
empty-name records; replace an existing same-SSID entry when strictly
stronger; otherwise append while below `MAX_SCANNED_NETWORKS`. -/
def dedupStep (acc : List ScanRecord) (r : ScanRecord) : List ScanRecord :=
  if skippedRec r then acc
  else if acc.any fun u => u.ssid == r.ssid then updateStronger acc r
  else if acc.length < maxScannedNetworks then acc ++ [r]
  else acc

/-- The first pass of `wifi_list_handler`: the `unique_networks` list built
from the scan batch. -/
def uniqueNetworks (input : List ScanRecord) : List ScanRecord :=
  input.foldl dedupStep []

/-- The inner loop of the second pass of `wifi_list_handler` for a fixed
outer index: carries the current occupant of slot `i` through slots
`i+1 …`; whenever a strictly stronger record is met the two are swapped.
Returns the final occupant of slot `i` and the remaining slots. -/
def selectMax (x : ScanRecord) : List ScanRecord → ScanRecord × List ScanRecord
  | [] => (x, [])
  | y :: ys =>
    if y.rssi > x.rssi then
      let p := selectMax y ys
      (p.1, x :: p.2)
    else
      let p := selectMax x ys
      (p.1, y :: p.2)

/-- The second pass of `wifi_list_handler` (selection sort by RSSI,
strongest first), with fuel for structural recursion; one fuel unit is
consumed per outer-loop index, so `fuel = length` runs it exactly. -/
def sortFuel : Nat → List ScanRecord → List ScanRecord
  | 0, _ => []
  | _ + 1, [] => []
  | n + 1, x :: xs =>
    let p := selectMax x xs
    p.1 :: sortFuel n p.2

/-- The sorted unique-network list of `wifi_list_handler`. -/
def sortByRssi (l : List ScanRecord) : List ScanRecord :=
  sortFuel l.length l

/-- The network list the portal's `/wifi` endpoint produces from a
completed scan batch (passes one and two of `wifi_list_handler`; the third
pass emits every entry of this list as JSON). -/
def portalList (input : List ScanRecord) : List ScanRecord :=
  sortByRssi (uniqueNetworks input)

/-! ## Minimum signal quality and auto-reconnect (`wifi_manager_api.c`) -/

/-- `wifi_manager_set_minimum_signal_quality`: the configured value is
clamped to 0–100 and stored; it is read by no other function. -/
def setMinimumSignalQuality (quality : Int) : Int :=
  max 0 (min 100 quality)

/-- One iteration of the saved-SSID selection loop of `wifi_manager_start`
(`wifi_manager_api.c`): keep the first strongest record matching the
target (strict `>` against the running maximum). -/
def strongestStep (ssid : String) (best : Option ScanRecord × Int)
    (r : ScanRecord) : Option ScanRecord × Int :=
  if r.ssid = ssid ∧ r.rssi > best.2 then (some r, r.rssi) else best

/-- The saved-SSID selection of `wifi_manager_start`: fold over the raw
batch starting from no candidate and `strongest_rssi = -128`. -/
def findStrongest (records : List ScanRecord) (ssid : String) : Option ScanRecord :=
  (records.foldl (strongestStep ssid) (none, -128)).1

/-- A concrete scan batch: two records named `HomeNet` (−70 and −55 dBm), a
hidden record and an empty-name record. -/
def demoBatch : List ScanRecord :=
  [{ ssid := "HomeNet", rssi := -70, authmode := AuthMode.wpa2Psk, is_hidden := false },
   { ssid := "CafeNet", rssi := -82, authmode := AuthMode.authOpen, is_hidden := false },
   { ssid := "HomeNet", rssi := -55, authmode := AuthMode.wpa2Psk, is_hidden := false },
   { ssid := "Ghost", rssi := -40, authmode := AuthMode.wpa2Psk, is_hidden := true },
   { ssid := "", rssi := -30, authmode := AuthMode.authOpen, is_hidden := false }]

/-! ## Config portal controller (`wifi_manager_start_config_portal`,
`wifi_manager_api.c`, and `timeout_timer_callback`, `wifi_manager_core.c`) -/

/-- The portal-session slice of `wifi_manager_t`, instrumented with
counters for the externally observable side effects: `timer_deletes`
counts `xTimerStop`+`xTimerDelete` pairs, `callback_calls` counts
invocations of the registered save callback. `timeout_timer` is whether
the timer handle is non-NULL. -/
structure PortalState where
  portal_aborted : Bool
  config_saved : Bool
  timeout_timer : Bool
  timer_deletes : Nat
  callback_calls : Nat
deriving DecidableEq, Repr

/-- What the environment does and exposes during one one-second poll
iteration of the wait loop: whether `portal_aborted` gets set during the
delay (by `timeout_timer_callback` or an external abort), whether
`xTimerIsTimerActive` still holds, and the `current_status` the loop
reads. -/
structure PollTick where
  abortSignalled : Bool
  timerActive : Bool
  status : WifiStatus
deriving DecidableEq, Repr

/-- `timeout_timer_callback` (`wifi_manager_core.c`): sets
`wm->portal_aborted = true` and nothing else. -/
def timeoutTimerCallback (s : PortalState) : PortalState :=
  { s with portal_aborted := true }

/-- Effect of the environment during the `vTaskDelay` of one poll
iteration. -/
def applyTick (s : PortalState) (t : PollTick) : PortalState :=
  if t.abortSignalled then { s with portal_aborted := true } else s

/-- The wait loop of `wifi_manager_start_config_portal`: loop while
neither `portal_aborted` nor `config_saved`; each iteration delays (during
which the environment acts), then breaks on an inactive timeout timer, or
sets `config_saved` and breaks when the status is `CONNECTED`. Returns
`none` when the trace ends with the loop still running. -/
def portalWait (s : PortalState) : List PollTick → Option PortalState
  | [] => if s.portal_aborted || s.config_saved then some s else none
  | t :: rest =>
    if s.portal_aborted || s.config_saved then some s
    else
      let s1 := applyTick s t
      if s1.timeout_timer = true ∧ t.timerActive = false then some s1
      else if t.status = WifiStatus.connected then
        some { s1 with config_saved := true }
      else portalWait s1 rest

/-- The session state entering the wait loop: both flags cleared at the top
of `wifi_manager_start_config_portal`, the timeout timer created (and
assumed successfully allocated) exactly when `config_portal_timeout > 0`,
no side effects counted yet. -/
def portalInit (timeoutSeconds : Nat) : PortalState :=
  { portal_aborted := false, config_saved := false,
    timeout_timer := decide (0 < timeoutSeconds),
    timer_deletes := 0, callback_calls := 0 }

/-- The exit path of `wifi_manager_start_config_portal` after the wait
loop: if the timer handle is non-NULL, stop and delete it and NULL the
handle; then return `true` and fire the registered save callback when
`config_saved` is set, else return `false`. -/
def portalExit (s : PortalState) (callbackRegistered : Bool) :
    PortalState × Bool :=
  let s1 := if s.timeout_timer then
      { s with timeout_timer := false, timer_deletes := s.timer_deletes + 1 }
    else s
  if s1.config_saved then
    (if callbackRegistered then
        { s1 with callback_calls := s1.callback_calls + 1 }
      else s1, true)
  else (s1, false)

/-! ## Portal startup sequence (`wifi_manager_start_config_portal`) -/

/-- The externally observable actions of the straight-line portion of
`wifi_manager_start_config_portal` before its wait loop. -/
inductive PortalEvent where
  | setStatus (s : WifiStatus)
  | apCallbackInvoked
  | wifiStopped
  | apStaModeSet
  | apConfigSet
  | staDisconnectIssued
  | wifiStarted
  | webServerStarted
  | settleDelay
  | scanTriggered
  | timerCreatedStarted
deriving DecidableEq, Repr

/-- The action sequence of `wifi_manager_start_config_portal`
(`wifi_manager_api.c`), in source order: the status is assigned
`WIFI_STATUS_CONFIG_PORTAL` first; `update_status(WIFI_STATUS_AP_MODE)`
runs only after `start_webserver()`. -/
def portalStartupTrace : List PortalEvent :=
  [PortalEvent.setStatus WifiStatus.configPortal,
   PortalEvent.apCallbackInvoked,
   PortalEvent.wifiStopped,
   PortalEvent.apStaModeSet,
   PortalEvent.apConfigSet,
   PortalEvent.staDisconnectIssued,
   PortalEvent.wifiStarted,
   PortalEvent.webServerStarted,
   PortalEvent.setStatus WifiStatus.apMode,
   PortalEvent.settleDelay,
   PortalEvent.scanTriggered,
   PortalEvent.timerCreatedStarted]

/-! ## Configuration parameter store (`wifi_manager_config.c`) -/

/-- `config_param_type_t`. -/
inductive ConfigType where
  | string
  | int
  | bool
  | float
deriving DecidableEq, Repr

/-- `MAX_CONFIG_STRING_LEN`. -/
def maxConfigStringLen : Nat := 128

/-- `MAX_CONFIG_PARAMS`. -/
def maxConfigParams : Nat := 16

/-- `config_param_t` (the `validation_pattern` field is written by
`add_config_parameter` but read by no validation code, so it is omitted). -/
structure ConfigParam where
  key : String
  label : String
  type : ConfigType
  value : String
  default_value : String
  required : Bool
  min_length : Nat
  max_length : Nat
  placeholder : String
deriving DecidableEq, Repr

/-- Truncating store into a fixed C buffer: the first `n` characters of
the source (`strncpy(dst, src, n)` plus NUL termination; C counts bytes,
modelled here per character). Structurally recursive so that concrete
instances evaluate. -/
def strFit (s : String) (n : Nat) : String :=
  String.mk (s.data.take n)

/-- Per-character `tolower`, as in cJSON's case-insensitive key compare. -/
def strLower (s : String) : String :=
  String.mk (s.data.map Char.toLower)

/-- The six `isspace` characters skipped by `strtol`/`strtof`/`atoi`. -/
def skipSpaces (cs : List Char) : List Char :=
  cs.dropWhile fun c =>
    c = ' ' ∨ c = '\t' ∨ c = '\n' ∨ c = '\x0b' ∨ c = '\x0c' ∨ c = '\r'

/-- Value of a digit string (most significant first). -/
def digitsVal (cs : List Char) : Nat :=
  cs.foldl (fun a c => a * 10 + (c.toNat - 48)) 0

/-- `strtol(value, &endptr, 10)` together with the `*endptr == '\0'` check
of `set_config_parameter`: optional leading whitespace, optional sign, one
or more digits, nothing after. `none` when the whole string is not
consumed. -/
def strtolAll (s : String) : Option Int :=
  let cs := skipSpaces s.toList
  match cs with
  | '+' :: rest =>
    if !rest.isEmpty && rest.all Char.isDigit then some (digitsVal rest) else none
  | '-' :: rest =>
    if !rest.isEmpty && rest.all Char.isDigit then some (-(digitsVal rest : Int))
    else none
  | rest =>
    if !rest.isEmpty && rest.all Char.isDigit then some (digitsVal rest) else none

/-- Exponent tail accepted by `strtof`: empty, or `e`/`E`, optional sign,
one or more digits. -/
def expTailOk (cs : List Char) : Bool :=
  match cs with
  | [] => true
  | c :: rest =>
    if c = 'e' ∨ c = 'E' then
      let rest2 := match rest with
        | '+' :: r => r
        | '-' :: r => r
        | r => r
      !rest2.isEmpty && rest2.all Char.isDigit
    else false

/-- Unsigned decimal mantissa accepted by `strtof`: digits with an optional
fractional part, or a leading point with digits, followed by an optional
exponent. -/
def decimalOk (cs : List Char) : Bool :=
  let intPart := cs.takeWhile Char.isDigit
  let rest1 := cs.dropWhile Char.isDigit
  match rest1 with
  | '.' :: rest2 =>
    let fracPart := rest2.takeWhile Char.isDigit
    let rest3 := rest2.dropWhile Char.isDigit
    (!intPart.isEmpty || !fracPart.isEmpty) && expTailOk rest3
  | _ => !intPart.isEmpty && expTailOk rest1

/-- `strtof(value, &endptr)` with the `*endptr == '\0'` check: optional
whitespace and sign, then a decimal form or the case-insensitive
`inf`/`infinity`/`nan` forms. (C hexadecimal float forms are not
modelled.) -/
def strtofAll (s : String) : Bool :=
  let cs := skipSpaces s.toList
  let cs2 := match cs with
    | '+' :: r => r
    | '-' :: r => r
    | r => r
  let lower := cs2.map Char.toLower
  decimalOk cs2 || lower == ['i', 'n', 'f'] ||
    lower == ['i', 'n', 'f', 'i', 'n', 'i', 't', 'y'] || lower == ['n', 'a', 'n']

/-- `atoi`: like `strtol` base 10 but consuming only the numeric
prefix and returning 0 when there is none. (Int overflow of the C `int`
is not modelled; theorems that rely on `atoi` carry explicit range
bounds.) -/
def atoiModel (s : String) : Int :=
  let cs := skipSpaces s.toList
  match cs with
  | '+' :: rest => (digitsVal (rest.takeWhile Char.isDigit) : Int)
  | '-' :: rest => -(digitsVal (rest.takeWhile Char.isDigit) : Int)
  | rest => (digitsVal (rest.takeWhile Char.isDigit) : Int)

/-- `atof` on the decimal forms: optional whitespace, sign, digits with an
optional fractional part, evaluated exactly over `ℚ`. (The exponent and
hexadecimal forms of `atof` and IEEE-754 double rounding are not modelled;
no theorem below depends on this branch.) -/
def atofQ (s : String) : Rat :=
  let cs := skipSpaces s.toList
  let sign : Rat := if cs.head? = some '-' then -1 else 1
  let cs2 := match cs with
    | '+' :: r => r
    | '-' :: r => r
    | r => r
  let intPart := cs2.takeWhile Char.isDigit
  let rest := cs2.dropWhile Char.isDigit
  let frac := match rest with
    | '.' :: r => r.takeWhile Char.isDigit
    | _ => []
  sign * ((digitsVal intPart : Rat) + (digitsVal frac : Rat) / ((10 : Rat) ^ frac.length))

/-- The per-type validation block of `set_config_parameter` for a
non-empty value: full `strtol` parse for int, full `strtof` parse for
float, one of `true`/`false`/`1`/`0` for bool, length bound for string. -/
def validValue (p : ConfigParam) (value : String) : Bool :=
  match p.type with
  | ConfigType.int => (strtolAll value).isSome
  | ConfigType.float => strtofAll value
  | ConfigType.bool =>
    value == "true" || value == "false" || value == "1" || value == "0"
  | ConfigType.string => decide (value.length ≤ p.max_length)

/-- The `strncpy(param->value, value, sizeof(param->value) - 1)` store. -/
def setParamValue (p : ConfigParam) (value : String) : ConfigParam :=
  { p with value := strFit value (maxConfigStringLen - 1) }

/-- Error codes surfaced by the parameter store. -/
inductive ConfigErr where
  | invalidArg
  | notFound
deriving DecidableEq, Repr

/-- `set_config_parameter` (`wifi_manager_config.c`): scan the collection
for the first key match; validate a non-empty value by type and store it,
reject an empty value for a required parameter, clear the value otherwise;
`ESP_ERR_NOT_FOUND` when no key matches. Returns the resulting collection
(unchanged on error, as in C where validation precedes the store) and the
error status (`none` = `ESP_OK`). -/
def setConfigParameter : List ConfigParam → String → String →
    List ConfigParam × Option ConfigErr
  | [], _, _ => ([], some ConfigErr.notFound)
  | p :: rest, key, value =>
    if p.key = key then
      if value ≠ "" then
        if validValue p value then
          (setParamValue p value :: rest, none)
        else (p :: rest, some ConfigErr.invalidArg)
      else
        if p.required then (p :: rest, some ConfigErr.invalidArg)
        else ({ p with value := "" } :: rest, none)
    else
      let r := setConfigParameter rest key value
      (p :: r.1, r.2)

/-- First parameter with the given key, as the lookup loops of
`set_config_parameter`/`get_config_parameter` find it. -/
def findParam : List ConfigParam → String → Option ConfigParam
  | [], _ => none
  | p :: rest, key => if p.key = key then some p else findParam rest key

/-- `add_config_parameter`: append a parameter (with the `strncpy`
truncations of the C buffers) unless the collection is full; the
length bounds are set from the type exactly as in the C switch. -/
def addConfigParameter (params : List ConfigParam) (key label : String)
    (type : ConfigType) (defaultValue : String) (required : Bool)
    (placeholder : String) : List ConfigParam :=
  if params.length ≥ maxConfigParams then params
  else
    params ++
      [{ key := strFit key 31
         label := strFit label 63
         type := type
         value := strFit defaultValue (maxConfigStringLen - 1)
         default_value := strFit defaultValue (maxConfigStringLen - 1)
         required := required
         min_length :=
           match type with
           | ConfigType.string => if required then 1 else 0
           | ConfigType.int => 1
           | ConfigType.bool => 0
           | ConfigType.float => 1
         max_length :=
           match type with
           | ConfigType.string => maxConfigStringLen - 1
           | ConfigType.int => 10
           | ConfigType.bool => 5
           | ConfigType.float => 15
         placeholder := strFit placeholder 63 }]

/-- `init_default_config_parameters`: the eight default MQTT/device
parameters. -/
def defaultParams : List ConfigParam :=
  let l0 : List ConfigParam := []
  let l1 := addConfigParameter l0 "mqtt_broker" "MQTT Broker"
    ConfigType.string "broker.mqtt.cool" true "mqtt.example.com"
  let l2 := addConfigParameter l1 "mqtt_port" "MQTT Port"
    ConfigType.int "1883" true "1883"
  let l3 := addConfigParameter l2 "mqtt_username" "MQTT Username"
    ConfigType.string "" false "username"
  let l4 := addConfigParameter l3 "mqtt_password" "MQTT Password"
    ConfigType.string "" false "password"
  let l5 := addConfigParameter l4 "mqtt_topic" "MQTT Topic Prefix"
    ConfigType.string "esp32/device" true "esp32/device"
  let l6 := addConfigParameter l5 "device_name" "Device Name"
    ConfigType.string "ESP32-CYD" true "My ESP32 Device"
  let l7 := addConfigParameter l6 "update_interval" "Update Interval (seconds)"
    ConfigType.int "30" true "30"
  addConfigParameter l7 "enable_debug" "Enable Debug Logging"
    ConfigType.bool "false" false ""

/-- The JSON value kinds `save_config_parameters` emits (cJSON numbers are
C doubles; they are modelled exactly over `ℚ`). -/
inductive JsonVal where
  | str (s : String)
  | num (q : Rat)
  | jbool (b : Bool)
deriving DecidableEq, Repr

/-- The JSON value `save_config_parameters` emits for one parameter:
string values verbatim, int values through `atoi`, float values through
`atof`, bool values true exactly for `"true"` or `"1"`. -/
def savedVal (p : ConfigParam) : JsonVal :=
  match p.type with
  | ConfigType.string => JsonVal.str p.value
  | ConfigType.int => JsonVal.num ((atoiModel p.value : Int) : Rat)
  | ConfigType.float => JsonVal.num (atofQ p.value)
  | ConfigType.bool => JsonVal.jbool (p.value == "true" || p.value == "1")

/-- `save_config_parameters` (`wifi_manager_config.c`), up to the NVS
transport: one JSON member per registered parameter. -/
def saveJson (params : List ConfigParam) : List (String × JsonVal) :=
  params.map fun p => (p.key, savedVal p)

/-- `cJSON_GetObjectItem`: first member whose key matches
case-insensitively. -/
def lookupJson : List (String × JsonVal) → String → Option JsonVal
  | [], _ => none
  | (k, v) :: rest, key =>
    if strLower k = strLower key then some v else lookupJson rest key

/-- `snprintf(value, ..., "%d", (int)json_item->valuedouble)`: the double
truncated toward zero (`Int.tdiv`), printed in decimal. -/
def fmtIntOfRat (q : Rat) : String :=
  toString (Int.tdiv q.num (q.den : Int))

/-- `snprintf(value, ..., "%.2f", json_item->valuedouble)`: the value
rounded to two decimals and printed with exactly two fractional digits.
(`%.2f` rounds on the double's bits; rounding half up over `ℚ` stands in
for it; no theorem below depends on this branch.) -/
def fmtTwoDecimals (q : Rat) : String :=
  let n : Int := round (q * 100)
  let a := n.natAbs
  (if n < 0 then "-" else "") ++ toString (a / 100) ++ "." ++
    (if a % 100 < 10 then "0" ++ toString (a % 100) else toString (a % 100))

/-- The per-parameter update of `load_config_parameters`: look the key up
in the parsed JSON; update the value only when the member's kind matches
the registered type (`cJSON_IsString`/`IsNumber`/`IsBool`), formatting by
type; otherwise keep the stored value. -/
def loadParamValue (j : List (String × JsonVal)) (p : ConfigParam) :
    ConfigParam :=
  match lookupJson j p.key with
  | none => p
  | some v =>
    match p.type, v with
    | ConfigType.string, JsonVal.str s =>
      { p with value := strFit s (maxConfigStringLen - 1) }
    | ConfigType.int, JsonVal.num q => { p with value := fmtIntOfRat q }
    | ConfigType.float, JsonVal.num q => { p with value := fmtTwoDecimals q }
    | ConfigType.bool, JsonVal.jbool b =>
      { p with value := if b then "true" else "false" }
    | _, _ => p

/-- `load_config_parameters` (`wifi_manager_config.c`), up to the NVS
transport: update every registered parameter from the parsed JSON. -/
def loadConfigParameters (params : List ConfigParam)
    (j : List (String × JsonVal)) : List ConfigParam :=
  params.map (loadParamValue j)

/-- An int parameter holding the validation-accepted but non-canonical
value `"007"`. -/
def port007 : ConfigParam :=
  { key := "mqtt_port", label := "MQTT Port", type := ConfigType.int,
    value := "007", default_value := "1883", required := true,
    min_length := 1, max_length := 10, placeholder := "1883" }

/-- A weak visible network: RSSI −85 dBm maps to quality 25. -/
def weakBatch : List ScanRecord :=
  [{ ssid := "WeakNet", rssi := -85, authmode := AuthMode.wpa2Psk,
     is_hidden := false }]

/-- A poll trace whose second iteration observes `CONNECTED`. -/
def demoTicks : List PollTick :=
  [{ abortSignalled := false, timerActive := true,
     status := WifiStatus.apMode },
   { abortSignalled := false, timerActive := true,
     status := WifiStatus.connected }]

/-- The state in which the wait loop exits on `demoTicks` after starting
with a five-second timeout: credential saved, timer still held. -/
def savedExitState : PortalState :=
  { portal_aborted := false, config_saved := true,
    timeout_timer := true, timer_deletes := 0, callback_calls := 0 }

/-! # Lemmas about the selection algorithm -/

theorem selectMax_snd_length (x : ScanRecord) (l : List ScanRecord) :
    (selectMax x l).2.length = l.length := by
  induction l generalizing x with
  | nil => rfl
  | cons y ys ih =>
    by_cases h : y.rssi > x.rssi <;> simp [selectMax, h, ih]

theorem selectMax_perm (x : ScanRecord) (l : List ScanRecord) :
    ((selectMax x l).1 :: (selectMax x l).2).Perm (x :: l) := by
  induction l generalizing x with
  | nil => exact List.Perm.refl _
  | cons y ys ih =>
    by_cases h : y.rssi > x.rssi
    · simp only [selectMax, if_pos h]
      exact (List.Perm.swap _ _ _).symm.trans ((ih y).cons x) |>.trans
        (List.Perm.swap _ _ _).symm |>.trans (List.Perm.swap _ _ _)
    · simp only [selectMax, if_neg h]
      exact ((List.Perm.swap _ _ _).symm.trans ((ih x).cons y)).trans
        (List.Perm.swap _ _ _)

theorem selectMax_is_max (x : ScanRecord) (l : List ScanRecord) :
    x.rssi ≤ (selectMax x l).1.rssi ∧
    ∀ y ∈ (selectMax x l).2, y.rssi ≤ (selectMax x l).1.rssi := by
  induction l generalizing x with
  | nil => exact ⟨le_refl _, by simp [selectMax]⟩
  | cons y ys ih =>
    by_cases h : y.rssi > x.rssi
    · simp only [selectMax, if_pos h]
      obtain ⟨h1, h2⟩ := ih y
      refine ⟨le_of_lt (lt_of_lt_of_le h h1), ?_⟩
      intro z hz
      rcases List.mem_cons.mp hz with rfl | hz'
      · exact le_of_lt (lt_of_lt_of_le h h1)
      · exact h2 z hz'
    · simp only [selectMax, if_neg h]
      obtain ⟨h1, h2⟩ := ih x
      refine ⟨h1, ?_⟩
      intro z hz
      rcases List.mem_cons.mp hz with rfl | hz'
      · exact le_trans (le_of_not_lt h) h1
      · exact h2 z hz'

theorem sortFuel_perm :
    ∀ (n : Nat) (l : List ScanRecord), n = l.length → (sortFuel n l).Perm l := by
  intro n
  induction n with
  | zero =>
    intro l h
    rw [List.length_eq_zero.mp h.symm]
    exact List.Perm.refl _
  | succ n ih =>
    intro l h
    cases l with
    | nil => simp at h
    | cons x xs =>
      simp only [sortFuel]
      have hlen : n = (selectMax x xs).2.length := by
        rw [selectMax_snd_length]
        simpa using h
      exact ((ih _ hlen).cons _).trans (selectMax_perm x xs)

theorem sortByRssi_perm (l : List ScanRecord) : (sortByRssi l).Perm l :=
  sortFuel_perm l.length l rfl

theorem sortFuel_subset :
    ∀ (n : Nat) (l : List ScanRecord), ∀ b ∈ sortFuel n l, b ∈ l := by
  intro n
  induction n with
  | zero => intro l b hb; simp [sortFuel] at hb
  | succ n ih =>
    intro l b hb
    cases l with
    | nil => simp [sortFuel] at hb
    | cons x xs =>
      simp only [sortFuel] at hb
      rcases List.mem_cons.mp hb with rfl | hb'
      · exact (selectMax_perm x xs).mem_iff.mp (List.mem_cons_self _ _)
      · exact (selectMax_perm x xs).mem_iff.mp
          (List.mem_cons_of_mem _ (ih _ b hb'))

theorem sortFuel_sorted :
    ∀ (n : Nat) (l : List ScanRecord),
      (sortFuel n l).Pairwise (fun a b => b.rssi ≤ a.rssi) := by
  intro n
  induction n with
  | zero => intro l; simp [sortFuel]
  | succ n ih =>
    intro l
    cases l with
    | nil => simp [sortFuel]
    | cons x xs =>
      simp only [sortFuel]
      refine List.Pairwise.cons ?_ (ih _)
      intro b hb
      exact (selectMax_is_max x xs).2 b (sortFuel_subset n _ b hb)

theorem updateStronger_map_ssid (acc : List ScanRecord) (r : ScanRecord) :
    (updateStronger acc r).map ScanRecord.ssid = acc.map ScanRecord.ssid := by
  induction acc with
  | nil => rfl
  | cons u rest ih =>
    by_cases h : u.ssid = r.ssid
    · simp only [updateStronger, if_pos h, List.map_cons]
      split
      · simp [h]
      · rfl
    · simp [updateStronger, h, ih]

theorem updateStronger_length (acc : List ScanRecord) (r : ScanRecord) :
    (updateStronger acc r).length = acc.length := by
  have := congrArg List.length (updateStronger_map_ssid acc r)
  simpa using this

theorem updateStronger_mem (acc : List ScanRecord) (r v : ScanRecord)
    (hv : v ∈ updateStronger acc r) : v ∈ acc ∨ v = r := by
  induction acc with
  | nil => simp [updateStronger] at hv
  | cons u rest ih =>
    by_cases h : u.ssid = r.ssid
    · simp only [updateStronger, if_pos h] at hv
      rcases List.mem_cons.mp hv with h1 | h1
      · split at h1
        · exact Or.inr h1
        · exact Or.inl (h1 ▸ List.mem_cons_self _ _)
      · exact Or.inl (List.mem_cons_of_mem _ h1)
    · simp only [updateStronger, if_neg h] at hv
      rcases List.mem_cons.mp hv with h1 | h1
      · exact Or.inl (h1 ▸ List.mem_cons_self _ _)
      · rcases ih h1 with h2 | h2
        · exact Or.inl (List.mem_cons_of_mem _ h2)
        · exact Or.inr h2

theorem updateStronger_dominates (acc : List ScanRecord) (r : ScanRecord) :
    ∀ u ∈ acc, ∃ v ∈ updateStronger acc r, v.ssid = u.ssid ∧ u.rssi ≤ v.rssi := by
  induction acc with
  | nil => intro u hu; cases hu
  | cons w rest ih =>
    intro u hu
    by_cases h : w.ssid = r.ssid
    · simp only [updateStronger, if_pos h]
      rcases List.mem_cons.mp hu with rfl | hu'
      · by_cases hr : r.rssi > u.rssi
        · exact ⟨r, by simp [hr], h.symm, le_of_lt hr⟩
        · exact ⟨u, by simp [hr], rfl, le_refl _⟩
      · exact ⟨u, List.mem_cons_of_mem _ hu', rfl, le_refl _⟩
    · simp only [updateStronger, if_neg h]
      rcases List.mem_cons.mp hu with rfl | hu'
      · exact ⟨u, List.mem_cons_self _ _, rfl, le_refl _⟩
      · obtain ⟨v, hv, hvs, hvr⟩ := ih u hu'
        exact ⟨v, List.mem_cons_of_mem _ hv, hvs, hvr⟩

theorem updateStronger_covers (acc : List ScanRecord) (r : ScanRecord)
    (h : ∃ u ∈ acc, u.ssid = r.ssid) :
    ∃ v ∈ updateStronger acc r, v.ssid = r.ssid ∧ r.rssi ≤ v.rssi := by
  induction acc with
  | nil => simp at h
  | cons w rest ih =>
    by_cases hw : w.ssid = r.ssid
    · simp only [updateStronger, if_pos hw]
      by_cases hr : r.rssi > w.rssi
      · exact ⟨r, by simp [hr], rfl, le_refl _⟩
      · exact ⟨w, by simp [hr], hw, le_of_not_lt hr⟩
    · simp only [updateStronger, if_neg hw]
      obtain ⟨u, hu, hus⟩ := h
      rcases List.mem_cons.mp hu with rfl | hu'
      · exact absurd hus hw
      · obtain ⟨v, hv, hvs, hvr⟩ := ih ⟨u, hu', hus⟩
        exact ⟨v, List.mem_cons_of_mem _ hv, hvs, hvr⟩

/-- Invariant of the first pass of `wifi_list_handler`, carried through the
fold: unique SSIDs, every entry is an unskipped processed record, every
unskipped processed record is dominated by a same-SSID entry, and the
accumulator is no longer than the processed portion (so the capacity guard
never trips while the whole input fits `MAX_SCANNED_NETWORKS`). -/
theorem dedup_fold_inv (input : List ScanRecord) :
    ∀ (processed acc : List ScanRecord),
    (acc.map ScanRecord.ssid).Nodup →
    (∀ u ∈ acc, u ∈ processed ∧ ¬ skippedRec u) →
    (∀ r ∈ processed, ¬ skippedRec r →
      ∃ u ∈ acc, u.ssid = r.ssid ∧ r.rssi ≤ u.rssi) →
    acc.length ≤ processed.length →
    processed.length + input.length ≤ maxScannedNetworks →
    ((input.foldl dedupStep acc).map ScanRecord.ssid).Nodup ∧
    (∀ u ∈ input.foldl dedupStep acc,
      (u ∈ processed ∨ u ∈ input) ∧ ¬ skippedRec u) ∧
    (∀ r, (r ∈ processed ∨ r ∈ input) → ¬ skippedRec r →
      ∃ u ∈ input.foldl dedupStep acc, u.ssid = r.ssid ∧ r.rssi ≤ u.rssi) := by
  induction input with
  | nil =>
    intro processed acc h1 h2 h3 _ _
    refine ⟨h1, fun u hu => ⟨Or.inl (h2 u hu).1, (h2 u hu).2⟩, ?_⟩
    intro r hr hskip
    rcases hr with hr | hr
    · exact h3 r hr hskip
    · cases hr
  | cons r rest ih =>
    intro processed acc h1 h2 h3 h4 h5
    simp only [List.foldl_cons]
    by_cases hskip : skippedRec r
    · -- skipped: accumulator unchanged, record r is hidden or empty-named
      have hstep : dedupStep acc r = acc := by simp [dedupStep, hskip]
      rw [hstep]
      have h5' : (processed ++ [r]).length + rest.length ≤ maxScannedNetworks := by
        simp only [List.length_append, List.length_cons, List.length_nil] at h5 ⊢
        omega
      have main := ih (processed ++ [r]) acc h1
        (fun u hu => ⟨List.mem_append_left _ (h2 u hu).1, (h2 u hu).2⟩)
        (by
          intro r' hr' hs'
          rcases List.mem_append.mp hr' with hr' | hr'
          · exact h3 r' hr' hs'
          · rw [List.mem_singleton.mp hr'] at hs'
            exact absurd hskip hs')
        (le_trans h4 (by simp))
        h5'
      refine ⟨main.1, ?_, ?_⟩
      · intro u hu
        obtain ⟨hmem, hs⟩ := main.2.1 u hu
        refine ⟨?_, hs⟩
        rcases hmem with hmem | hmem
        · rcases List.mem_append.mp hmem with h | h
          · exact Or.inl h
          · exact Or.inr (List.mem_cons.mpr (Or.inl (List.mem_singleton.mp h)))
        · exact Or.inr (List.mem_cons_of_mem _ hmem)
      · intro r' hr' hs'
        refine main.2.2 r' ?_ hs'
        rcases hr' with hr' | hr'
        · exact Or.inl (List.mem_append_left _ hr')
        · rcases List.mem_cons.mp hr' with rfl | h
          · exact Or.inl (List.mem_append_right _ (List.mem_singleton.mpr rfl))
          · exact Or.inr h
    · -- not skipped
      by_cases hany : (acc.any fun u => u.ssid == r.ssid) = true
      · -- duplicate SSID: replace-if-stronger
        have hex : ∃ u ∈ acc, u.ssid = r.ssid := by
          simpa [List.any_eq_true, beq_iff_eq] using hany
        have hstep : dedupStep acc r = updateStronger acc r := by
          simp [dedupStep, hskip, hany]
        rw [hstep]
        have h5' : (processed ++ [r]).length + rest.length ≤ maxScannedNetworks := by
          simp only [List.length_append, List.length_cons, List.length_nil] at h5 ⊢
          omega
        have main := ih (processed ++ [r]) (updateStronger acc r)
          (by rw [updateStronger_map_ssid]; exact h1)
          (by
            intro u hu
            rcases updateStronger_mem acc r u hu with h | rfl
            · exact ⟨List.mem_append_left _ (h2 u h).1, (h2 u h).2⟩
            · exact ⟨List.mem_append_right _ (List.mem_singleton.mpr rfl), hskip⟩)
          (by
            intro r' hr' hs'
            rcases List.mem_append.mp hr' with hr' | hr'
            · obtain ⟨u, hu, hus, hur⟩ := h3 r' hr' hs'
              obtain ⟨v, hv, hvs, hvr⟩ := updateStronger_dominates acc r u hu
              exact ⟨v, hv, hvs.trans hus, le_trans hur hvr⟩
            · rw [List.mem_singleton.mp hr']
              exact updateStronger_covers acc r hex)
          (by rw [updateStronger_length]; exact le_trans h4 (by simp))
          h5'
        refine ⟨main.1, ?_, ?_⟩
        · intro u hu
          obtain ⟨hmem, hs⟩ := main.2.1 u hu
          refine ⟨?_, hs⟩
          rcases hmem with hmem | hmem
          · rcases List.mem_append.mp hmem with h | h
            · exact Or.inl h
            · exact Or.inr (List.mem_cons.mpr (Or.inl (List.mem_singleton.mp h)))
          · exact Or.inr (List.mem_cons_of_mem _ hmem)
        · intro r' hr' hs'
          refine main.2.2 r' ?_ hs'
          rcases hr' with hr' | hr'
          · exact Or.inl (List.mem_append_left _ hr')
          · rcases List.mem_cons.mp hr' with rfl | h
            · exact Or.inl (List.mem_append_right _ (List.mem_singleton.mpr rfl))
            · exact Or.inr h
      · -- new SSID: capacity guard cannot trip while the input fits
        have hlt : acc.length < maxScannedNetworks := by
          simp only [List.length_cons] at h5
          omega
        have hstep : dedupStep acc r = acc ++ [r] := by
          simp [dedupStep, hskip, hany, hlt]
        rw [hstep]
        have hnotin : r.ssid ∉ acc.map ScanRecord.ssid := by
          intro hmem
          obtain ⟨u, hu, hus⟩ := List.mem_map.mp hmem
          exact hany (List.any_eq_true.mpr ⟨u, hu, beq_iff_eq.mpr hus⟩)
        have h5' : (processed ++ [r]).length + rest.length ≤ maxScannedNetworks := by
          simp only [List.length_append, List.length_cons, List.length_nil] at h5 ⊢
          omega
        have main := ih (processed ++ [r]) (acc ++ [r])
          (by
            rw [List.map_append]
            refine List.Nodup.append h1 (List.nodup_singleton _) ?_
            intro a ha hb
            rw [List.map_singleton] at hb
            rw [List.mem_singleton.mp hb] at ha
            exact hnotin ha)
          (by
            intro u hu
            rcases List.mem_append.mp hu with h | h
            · exact ⟨List.mem_append_left _ (h2 u h).1, (h2 u h).2⟩
            · rw [List.mem_singleton.mp h]
              exact ⟨List.mem_append_right _ (List.mem_singleton.mpr rfl), hskip⟩)
          (by
            intro r' hr' hs'
            rcases List.mem_append.mp hr' with hr' | hr'
            · obtain ⟨u, hu, hus, hur⟩ := h3 r' hr' hs'
              exact ⟨u, List.mem_append_left _ hu, hus, hur⟩
            · rw [List.mem_singleton.mp hr']
              exact ⟨r, List.mem_append_right _ (List.mem_singleton.mpr rfl),
                rfl, le_refl _⟩)
          (by simp only [List.length_append, List.length_singleton]; omega)
          h5'
        refine ⟨main.1, ?_, ?_⟩
        · intro u hu
          obtain ⟨hmem, hs⟩ := main.2.1 u hu
          refine ⟨?_, hs⟩
          rcases hmem with hmem | hmem
          · rcases List.mem_append.mp hmem with h | h
            · exact Or.inl h
            · exact Or.inr (List.mem_cons.mpr (Or.inl (List.mem_singleton.mp h)))
          · exact Or.inr (List.mem_cons_of_mem _ hmem)
        · intro r' hr' hs'
          refine main.2.2 r' ?_ hs'
          rcases hr' with hr' | hr'
          · exact Or.inl (List.mem_append_left _ hr')
          · rcases List.mem_cons.mp hr' with rfl | h
            · exact Or.inl (List.mem_append_right _ (List.mem_singleton.mpr rfl))
            · exact Or.inr h

/-! # Claims -/

/-- C1: from a zero retry counter while `CONNECTING`, each disconnect event
increments the counter; while the incremented counter is below
`WIFI_MANAGER_MAX_RETRY` (= 3) a reconnect is issued and status stays
`CONNECTING`; on reaching the maximum, status becomes `DISCONNECTED` and the
counter resets to zero; and every successful IP acquisition resets the
counter to zero. -/
theorem retry_counter_policy :
    (∀ s : CoreState, s.status = WifiStatus.connecting →
      (s.retry_count + 1 < maxRetry →
        (handleStaDisconnected s).1.retry_count = s.retry_count + 1 ∧
        (handleStaDisconnected s).1.status = WifiStatus.connecting ∧
        (handleStaDisconnected s).2 = true) ∧
      (s.retry_count + 1 ≥ maxRetry →
        (handleStaDisconnected s).1.status = WifiStatus.disconnected ∧
        (handleStaDisconnected s).1.retry_count = 0 ∧
        (handleStaDisconnected s).2 = false)) ∧
    (∀ k : Nat, 1 ≤ k → k < 3 →
      (discIter k connectingZero).status = WifiStatus.connecting ∧
      (discIter k connectingZero).retry_count = (k : Int)) ∧
    (discIter 3 connectingZero).status = WifiStatus.disconnected ∧
    (discIter 3 connectingZero).retry_count = 0 ∧
    (∀ s : CoreState, (handleGotIp s).retry_count = 0 ∧
      (handleGotIp s).status = WifiStatus.connected) := by
  refine ⟨?_, ?_, by decide, by decide, fun s => ⟨rfl, rfl⟩⟩
  · intro s _
    constructor
    · intro h
      simp [handleStaDisconnected, if_pos h]
    · intro h
      simp [handleStaDisconnected, if_neg (not_lt.mpr h)]
  · intro k hk1 hk3
    interval_cases k
    · exact ⟨by decide, by decide⟩
    · exact ⟨by decide, by decide⟩

/-- Witness for C1 at concrete inputs: one disconnect from the initial state
retries; two more give up; IP acquisition resets the counter. -/
theorem retry_counter_policy_witness :
    (handleStaDisconnected connectingZero).1.status = WifiStatus.connecting ∧
    (handleStaDisconnected connectingZero).1.retry_count = 1 ∧
    (discIter 2 connectingZero).retry_count = 2 ∧
    (discIter 3 connectingZero).status = WifiStatus.disconnected ∧
    (handleGotIp connectingZero).retry_count = 0 := by
  have h := retry_counter_policy
  refine ⟨?_, ?_, ?_, h.2.2.1, (h.2.2.2.2 connectingZero).1⟩
  · exact ((h.1 connectingZero rfl).1 (by decide)).2.1
  · exact ((h.1 connectingZero rfl).1 (by decide)).1
  · exact (h.2.1 2 (by decide) (by decide)).2

/-- C6: the mapped quality score is exactly 100 for RSSI ≥ −50 dBm, 90 for
RSSI in [−60, −50), 70 for [−70, −60), 50 for [−80, −70), 25 for [−90, −80),
and 10 below −90; in particular −55 dBm maps to 90. -/
theorem quality_breakpoints :
    (∀ r : Int, -50 ≤ r → signalQuality r = 100) ∧
    (∀ r : Int, -60 ≤ r → r < -50 → signalQuality r = 90) ∧
    (∀ r : Int, -70 ≤ r → r < -60 → signalQuality r = 70) ∧
    (∀ r : Int, -80 ≤ r → r < -70 → signalQuality r = 50) ∧
    (∀ r : Int, -90 ≤ r → r < -80 → signalQuality r = 25) ∧
    (∀ r : Int, r < -90 → signalQuality r = 10) ∧
    signalQuality (-55) = 90 := by
  refine ⟨?_, ?_, ?_, ?_, ?_, ?_, by decide⟩ <;>
    intro r h1 <;> first
      | (intro h2; simp only [signalQuality]; split_ifs <;> omega)
      | (simp only [signalQuality]; split_ifs <;> omega)

/-- Witness for C6 at concrete RSSI values. -/
theorem quality_breakpoints_witness :
    signalQuality (-45) = 100 ∧ signalQuality (-55) = 90 ∧
    signalQuality (-65) = 70 ∧ signalQuality (-75) = 50 ∧
    signalQuality (-85) = 25 ∧ signalQuality (-95) = 10 :=
  ⟨quality_breakpoints.1 (-45) (by decide),
   quality_breakpoints.2.1 (-55) (by decide) (by decide),
   quality_breakpoints.2.2.1 (-65) (by decide) (by decide),
   quality_breakpoints.2.2.2.1 (-75) (by decide) (by decide),
   quality_breakpoints.2.2.2.2.1 (-85) (by decide) (by decide),
   quality_breakpoints.2.2.2.2.2.1 (-95) (by decide)⟩

/-- C3 counterexample: triggering a scan while the radio is in AP-only mode
(a mode incapable of scanning) sets the completion flag but retains the
previous record batch instead of clearing it to zero records, refuting the
claim that every failed scan leaves the batch cleared. -/
theorem scan_failure_batch_cex :
    (scanStep staleScanState
        (ScanNotif.start WifiStatus.disconnected (some WifiMode.ap) true)).scan_completed
      = true ∧
    (scanStep staleScanState
        (ScanNotif.start WifiStatus.disconnected (some WifiMode.ap) true)).scanned_networks
      ≠ [] := by
  decide

/-- C3 (amended): every failure path of the scan task ends with the
completion flag set (never stuck incomplete); the record batch is cleared
to zero records when `esp_wifi_scan_start` fails after the eligibility
check and when fetching the results fails, while the incapable-mode (or
mode-query-error) path sets the completion flag but retains the previous
batch; the skip-when-connected path leaves the scan state untouched. -/
theorem scan_failure_empty_but_complete :
    (∀ (s : ScanState) (modeRes : Option WifiMode) (startOk : Bool),
      scanStep s (ScanNotif.start WifiStatus.connected modeRes startOk) = s) ∧
    (∀ (s : ScanState) (m : WifiMode) (status : WifiStatus),
      status ≠ WifiStatus.connected →
      (m = WifiMode.apsta ∨ m = WifiMode.sta) →
      scanStep s (ScanNotif.start status (some m) false) =
        { scan_completed := true, scanned_networks := [] }) ∧
    (∀ (s : ScanState) (m : WifiMode) (status : WifiStatus) (startOk : Bool),
      status ≠ WifiStatus.connected →
      ¬(m = WifiMode.apsta ∨ m = WifiMode.sta) →
      scanStep s (ScanNotif.start status (some m) startOk) =
        { s with scan_completed := true }) ∧
    (∀ (s : ScanState) (status : WifiStatus) (startOk : Bool),
      status ≠ WifiStatus.connected →
      scanStep s (ScanNotif.start status none startOk) =
        { s with scan_completed := true }) ∧
    (∀ s : ScanState,
      scanStep s (ScanNotif.complete none) =
        { s with scan_completed := true, scanned_networks := [] }) ∧
    (∀ (s : ScanState) (recs : List ScanRecord),
      (scanStep s (ScanNotif.complete (some recs))).scan_completed = true) := by
  refine ⟨fun s modeRes startOk => ?_, fun s m status hst hm => ?_,
          fun s m status startOk hst hm => ?_, fun s status startOk hst => ?_,
          fun s => rfl, fun s recs => rfl⟩
  · simp [scanStep]
  · simp [scanStep, hst, hm]
  · simp [scanStep, hst, hm]
  · simp [scanStep, hst]

/-- Witness for the amended C3 at concrete inputs. -/
theorem scan_failure_empty_but_complete_witness :
    scanStep staleScanState
        (ScanNotif.start WifiStatus.disconnected (some WifiMode.apsta) false)
      = { scan_completed := true, scanned_networks := [] } ∧
    scanStep staleScanState
        (ScanNotif.start WifiStatus.disconnected (some WifiMode.ap) true)
      = { staleScanState with scan_completed := true } ∧
    scanStep staleScanState (ScanNotif.complete none)
      = { staleScanState with scan_completed := true, scanned_networks := [] } :=
  ⟨scan_failure_empty_but_complete.2.1 staleScanState WifiMode.apsta
      WifiStatus.disconnected (by decide) (Or.inl rfl),
   scan_failure_empty_but_complete.2.2.1 staleScanState WifiMode.ap
      WifiStatus.disconnected true (by decide) (by decide),
   scan_failure_empty_but_complete.2.2.2.2.1 staleScanState⟩

/-- C4: for every scan batch (bounded by `MAX_SCANNED_NETWORKS`, as
`scanned_count` always is), the portal's network list contains no two
records with the same SSID, every listed record is a non-hidden,
non-empty-name record of the batch, and every non-hidden, non-empty-name
record of the batch is represented by a same-SSID listed record of at
least its signal strength — so the single retained record per SSID has the
maximum strength among its duplicates. -/
theorem dedup_strongest_per_ssid (input : List ScanRecord)
    (hlen : input.length ≤ maxScannedNetworks) :
    ((portalList input).map ScanRecord.ssid).Nodup ∧
    (∀ u ∈ portalList input, u ∈ input ∧ ¬(u.ssid = "" ∨ u.is_hidden = true)) ∧
    (∀ r ∈ input, ¬(r.ssid = "" ∨ r.is_hidden = true) →
      ∃ u ∈ portalList input, u.ssid = r.ssid ∧ r.rssi ≤ u.rssi) := by
  have base := dedup_fold_inv input [] []
    (by simp) (by simp) (by simp) (by simp) (by simpa using hlen)
  have hperm : (portalList input).Perm (uniqueNetworks input) :=
    sortByRssi_perm (uniqueNetworks input)
  have hmap : ((portalList input).map ScanRecord.ssid).Perm
      ((uniqueNetworks input).map ScanRecord.ssid) := hperm.map _
  refine ⟨hmap.nodup_iff.mpr base.1, ?_, ?_⟩
  · intro u hu
    obtain ⟨hmem, hs⟩ := base.2.1 u (hperm.mem_iff.mp hu)
    rcases hmem with h | h
    · cases h
    · exact ⟨h, hs⟩
  · intro r hr hs
    obtain ⟨u, hu, hus, hur⟩ := base.2.2 r (Or.inr hr) hs
    exact ⟨u, hperm.mem_iff.mpr hu, hus, hur⟩

/-- Witness for C4 on a concrete batch: two `HomeNet` records, a hidden
record and an empty-name record. -/
theorem dedup_strongest_per_ssid_witness :
    (((portalList demoBatch).map ScanRecord.ssid).Nodup ∧
     (∀ u ∈ portalList demoBatch,
        u ∈ demoBatch ∧ ¬(u.ssid = "" ∨ u.is_hidden = true)) ∧
     (∀ r ∈ demoBatch, ¬(r.ssid = "" ∨ r.is_hidden = true) →
        ∃ u ∈ portalList demoBatch, u.ssid = r.ssid ∧ r.rssi ≤ u.rssi)) ∧
    portalList demoBatch =
      [{ ssid := "HomeNet", rssi := -55, authmode := AuthMode.wpa2Psk,
         is_hidden := false },
       { ssid := "CafeNet", rssi := -82, authmode := AuthMode.authOpen,
         is_hidden := false }] :=
  ⟨dedup_strongest_per_ssid demoBatch (by decide), by decide⟩

/-- C5: the portal's network list is ordered by signal strength descending —
for any two positions, the later record's RSSI is no greater than the
earlier one's. -/
theorem portal_list_sorted (input : List ScanRecord) :
    (portalList input).Pairwise (fun a b => b.rssi ≤ a.rssi) :=
  sortFuel_sorted _ _

theorem applyTick_fields (s : PortalState) (t : PollTick) :
    (applyTick s t).timeout_timer = s.timeout_timer ∧
    (applyTick s t).timer_deletes = s.timer_deletes ∧
    (applyTick s t).callback_calls = s.callback_calls := by
  simp only [applyTick]
  split <;> exact ⟨rfl, rfl, rfl⟩

/-- The wait loop touches only the two flags: the timer handle and the
side-effect counters are constant across it. -/
theorem portalWait_const (ticks : List PollTick) :
    ∀ (s s' : PortalState), portalWait s ticks = some s' →
      s'.timeout_timer = s.timeout_timer ∧
      s'.timer_deletes = s.timer_deletes ∧
      s'.callback_calls = s.callback_calls := by
  induction ticks with
  | nil =>
    intro s s' h
    simp only [portalWait] at h
    split at h
    · cases h
      exact ⟨rfl, rfl, rfl⟩
    · exact Option.noConfusion h
  | cons t rest ih =>
    intro s s' h
    simp only [portalWait] at h
    split at h
    · cases h
      exact ⟨rfl, rfl, rfl⟩
    · split at h
      · cases h
        exact applyTick_fields s t
      · split at h
        · cases h
          exact applyTick_fields s t
        · obtain ⟨h1, h2, h3⟩ := ih _ _ h
          obtain ⟨g1, g2, g3⟩ := applyTick_fields s t
          exact ⟨h1.trans g1, h2.trans g2, h3.trans g3⟩

/-- C2: when the wait loop of `wifi_manager_start_config_portal` exits —
on a saved credential, an observed `CONNECTED` status, a timeout expiry or
an abort — the exit path deletes the timeout timer exactly once (exactly
zero times when no finite timeout configured one) and NULLs its handle;
the function returns `true` iff the session ended with `config_saved`
set; the registered save callback fires exactly once iff it returns
`true`; and an abort signalled afterwards (`timeout_timer_callback` only
sets `portal_aborted`) causes no further callback invocation or timer
deletion. -/
theorem portal_exit_contract (timeoutSeconds : Nat) (cb : Bool)
    (ticks : List PollTick) (s' : PortalState)
    (hexit : portalWait (portalInit timeoutSeconds) ticks = some s') :
    (portalExit s' cb).1.timeout_timer = false ∧
    (portalExit s' cb).1.timer_deletes =
      (if 0 < timeoutSeconds then 1 else 0) ∧
    (portalExit s' cb).2 = s'.config_saved ∧
    (portalExit s' cb).1.callback_calls =
      (if s'.config_saved = true ∧ cb = true then 1 else 0) ∧
    (timeoutTimerCallback (portalExit s' cb).1).timer_deletes =
      (portalExit s' cb).1.timer_deletes ∧
    (timeoutTimerCallback (portalExit s' cb).1).callback_calls =
      (portalExit s' cb).1.callback_calls ∧
    (timeoutTimerCallback (portalExit s' cb).1).timeout_timer =
      (portalExit s' cb).1.timeout_timer := by
  obtain ⟨h1, h2, h3⟩ := portalWait_const ticks _ _ hexit
  simp only [portalInit] at h1 h2 h3
  simp only [portalExit, timeoutTimerCallback]
  by_cases ht : 0 < timeoutSeconds
  · have hT : s'.timeout_timer = true := by
      rw [h1]
      exact decide_eq_true ht
    by_cases hcs : s'.config_saved = true
    · by_cases hcb : cb = true
      · simp [hT, hcs, hcb, h2, h3, ht]
      · simp [hT, hcs, hcb, h2, h3, ht]
    · simp only [Bool.not_eq_true] at hcs
      simp [hT, hcs, h2, h3, ht]
  · have hT : s'.timeout_timer = false := by
      rw [h1]
      simpa using ht
    by_cases hcs : s'.config_saved = true
    · by_cases hcb : cb = true
      · simp [hT, hcs, hcb, h2, h3, ht]
      · simp [hT, hcs, hcb, h2, h3, ht]
    · simp only [Bool.not_eq_true] at hcs
      simp [hT, hcs, h2, h3, ht]

/-- Witness for C2: a session with timeout 5 whose second poll observes
`CONNECTED`; it returns `true`, fires the callback once and deletes the
timer once. -/
theorem portal_exit_contract_witness :
    (portalExit savedExitState true).1.timeout_timer = false ∧
    (portalExit savedExitState true).2 = true ∧
    (portalExit savedExitState true).1.timer_deletes = 1 := by
  have h := portal_exit_contract 5 true demoTicks savedExitState (by decide)
  exact ⟨h.1, h.2.2.1.trans rfl, h.2.1.trans (by decide)⟩

/-- C8 counterexample: in the startup sequence of
`wifi_manager_start_config_portal`, before `start_webserver()` has run the
status has already been set to `WIFI_STATUS_CONFIG_PORTAL` (the spec's
`PortalActive`) while `WIFI_STATUS_AP_MODE` has not been set, refuting
both "first `ApMode`" and "never `PortalActive` before the web server is
serving". -/
theorem portal_status_order_cex :
    PortalEvent.setStatus WifiStatus.configPortal ∈
      portalStartupTrace.take
        (portalStartupTrace.indexOf PortalEvent.webServerStarted) ∧
    PortalEvent.setStatus WifiStatus.apMode ∉
      portalStartupTrace.take
        (portalStartupTrace.indexOf PortalEvent.webServerStarted) := by
  decide

/-- C8 (amended): during portal startup the status is set to
`WIFI_STATUS_CONFIG_PORTAL` first, before the access point is brought up
and before the web server starts; `WIFI_STATUS_AP_MODE` is set exactly
once, only after `start_webserver()` — the reverse of the claimed
`ApMode` → `PortalActive` order. -/
theorem portal_status_order :
    portalStartupTrace.indexOf (PortalEvent.setStatus WifiStatus.configPortal) = 0 ∧
    portalStartupTrace.indexOf (PortalEvent.setStatus WifiStatus.configPortal)
        < portalStartupTrace.indexOf PortalEvent.webServerStarted ∧
    portalStartupTrace.indexOf PortalEvent.webServerStarted
        < portalStartupTrace.indexOf (PortalEvent.setStatus WifiStatus.apMode) ∧
    (portalStartupTrace.filter
        (fun e => e == PortalEvent.setStatus WifiStatus.apMode)).length = 1 ∧
    (portalStartupTrace.filter
        (fun e => e == PortalEvent.setStatus WifiStatus.configPortal)).length = 1 := by
  decide

/-- Soundness of the saved-SSID fold of `wifi_manager_start`, generalized
over the accumulator: the selected record (when any) matches the target
SSID, improves on the running maximum, and dominates every matching record
of the remaining batch; when none is selected, every matching record is
bounded by the running maximum. -/
theorem strongest_fold_spec (ssid : String) :
    ∀ (records : List ScanRecord) (acc : Option ScanRecord × Int),
    (∀ b, acc.1 = some b → b.ssid = ssid ∧ b.rssi = acc.2) →
    (∀ r, (records.foldl (strongestStep ssid) acc).1 = some r →
      (r ∈ records ∨ acc.1 = some r) ∧ r.ssid = ssid ∧ acc.2 ≤ r.rssi ∧
      ∀ r' ∈ records, r'.ssid = ssid → r'.rssi ≤ r.rssi) ∧
    ((records.foldl (strongestStep ssid) acc).1 = none →
      acc.1 = none ∧ ∀ r' ∈ records, r'.ssid = ssid → r'.rssi ≤ acc.2) := by
  intro records
  induction records with
  | nil =>
    intro acc hsome
    refine ⟨?_, ?_⟩
    · intro r hr
      exact ⟨Or.inr hr, (hsome r hr).1, le_of_eq (hsome r hr).2.symm, by simp⟩
    · intro hr
      exact ⟨hr, by simp⟩
  | cons x rest ih =>
    intro acc hsome
    simp only [List.foldl_cons]
    by_cases hc : x.ssid = ssid ∧ x.rssi > acc.2
    · have hstep : strongestStep ssid acc x = (some x, x.rssi) := by
        simp [strongestStep, hc]
      rw [hstep]
      have ih' := ih (some x, x.rssi) (by
        intro b hb
        cases Option.some.inj hb
        exact ⟨hc.1, rfl⟩)
      refine ⟨?_, ?_⟩
      · intro r hr
        obtain ⟨hmem, hs, hge, hbound⟩ := ih'.1 r hr
        refine ⟨?_, hs, le_trans (le_of_lt hc.2) hge, ?_⟩
        · rcases hmem with h | h
          · exact Or.inl (List.mem_cons_of_mem _ h)
          · exact Or.inl (Option.some.inj h ▸ List.mem_cons_self _ _)
        · intro r' hr' hs'
          rcases List.mem_cons.mp hr' with rfl | h
          · exact hge
          · exact hbound r' h hs'
      · intro hr
        exact absurd (ih'.2 hr).1 (by simp)
    · have hstep : strongestStep ssid acc x = acc := by
        simp only [strongestStep, if_neg hc]
      rw [hstep]
      have ih' := ih acc hsome
      refine ⟨?_, ?_⟩
      · intro r hr
        obtain ⟨hmem, hs, hge, hbound⟩ := ih'.1 r hr
        refine ⟨?_, hs, hge, ?_⟩
        · rcases hmem with h | h
          · exact Or.inl (List.mem_cons_of_mem _ h)
          · exact Or.inr h
        · intro r' hr' hs'
          rcases List.mem_cons.mp hr' with rfl | h
          · have hle : ¬ r'.rssi > acc.2 := fun hgt => hc ⟨hs', hgt⟩
            exact le_trans (le_of_not_lt hle) hge
          · exact hbound r' h hs'
      · intro hr
        obtain ⟨hn, hbound⟩ := ih'.2 hr
        refine ⟨hn, ?_⟩
        intro r' hr' hs'
        rcases List.mem_cons.mp hr' with rfl | h
        · have hle : ¬ r'.rssi > acc.2 := fun hgt => hc ⟨hs', hgt⟩
          exact le_of_not_lt hle
        · exact hbound r' h hs'

/-- C7 counterexample: with the minimum signal quality configured to 50,
the portal's `/wifi` list still contains the network whose mapped quality
is 25 — the stored minimum is applied nowhere, refuting the claim that a
below-minimum network is not offered for manual selection. -/
theorem quality_minimum_cex :
    setMinimumSignalQuality 50 = 50 ∧
    portalList weakBatch =
      [{ ssid := "WeakNet", rssi := -85, authmode := AuthMode.wpa2Psk,
         is_hidden := false }] ∧
    signalQuality (-85) = 25 ∧
    signalQuality (-85) < setMinimumSignalQuality 50 := by
  decide

/-- C7 (amended): the configured minimum signal quality is clamped to
0–100 and stored but never applied: every non-hidden, non-empty-name
record of a batch is offered in the portal list whatever its quality
score, and automatic reconnection (`wifi_manager_start`) selects among the
records matching the saved SSID by raw signal strength alone, also
ignoring the quality minimum. -/
theorem quality_minimum_unused (q : Int) (input : List ScanRecord)
    (hlen : input.length ≤ maxScannedNetworks) :
    (0 ≤ setMinimumSignalQuality q ∧ setMinimumSignalQuality q ≤ 100) ∧
    (∀ r ∈ input, ¬ skippedRec r →
      ∃ u ∈ portalList input, u.ssid = r.ssid) ∧
    (∀ (ssid : String) (r : ScanRecord), findStrongest input ssid = some r →
      r ∈ input ∧ r.ssid = ssid ∧
      ∀ r' ∈ input, r'.ssid = ssid → r'.rssi ≤ r.rssi) := by
  refine ⟨⟨le_max_left _ _, max_le (by norm_num) (min_le_left _ _)⟩, ?_, ?_⟩
  · have base := dedup_fold_inv input [] []
      (by simp) (by simp) (by simp) (by simp) (by simpa using hlen)
    have hperm : (portalList input).Perm (uniqueNetworks input) :=
      sortByRssi_perm (uniqueNetworks input)
    intro r hr hs
    obtain ⟨u, hu, hus, _⟩ := base.2.2 r (Or.inr hr) hs
    exact ⟨u, hperm.mem_iff.mpr hu, hus⟩
  · intro ssid r hfind
    have spec := (strongest_fold_spec ssid input (none, -128)
      (by intro b hb; cases hb)).1 r hfind
    obtain ⟨hmem, hs, _, hbound⟩ := spec
    rcases hmem with h | h
    · exact ⟨h, hs, hbound⟩
    · cases h

/-- Witness for the amended C7 at concrete inputs. -/
theorem quality_minimum_unused_witness :
    (0 ≤ setMinimumSignalQuality 50 ∧ setMinimumSignalQuality 50 ≤ 100) ∧
    (∃ u ∈ portalList weakBatch, u.ssid = "WeakNet") := by
  have h := quality_minimum_unused 50 weakBatch (by decide)
  refine ⟨h.1, ?_⟩
  exact h.2.1
    { ssid := "WeakNet", rssi := -85, authmode := AuthMode.wpa2Psk,
      is_hidden := false }
    (by decide) (by decide)

theorem map_id_of_fixed {α : Type} (f : α → α) :
    ∀ l : List α, (∀ a ∈ l, f a = a) → l.map f = l := by
  intro l
  induction l with
  | nil => intro _; rfl
  | cons a t ih =>
    intro h
    simp only [List.map_cons]
    rw [h a (List.mem_cons_self a t),
        ih fun b hb => h b (List.mem_cons_of_mem _ hb)]

/-- With case-insensitively distinct keys, `cJSON_GetObjectItem` on the
saved JSON finds exactly the member `save_config_parameters` emitted for
the parameter. -/
theorem lookup_saveJson :
    ∀ (params : List ConfigParam),
    (params.map fun p => strLower p.key).Nodup →
    ∀ p ∈ params, lookupJson (saveJson params) p.key = some (savedVal p) := by
  intro params
  induction params with
  | nil => intro _ p hp; cases hp
  | cons q rest ih =>
    intro hnd p hp
    simp only [List.map_cons, List.nodup_cons] at hnd
    rcases List.mem_cons.mp hp with rfl | hp'
    · show lookupJson ((p.key, savedVal p) :: saveJson rest) p.key
        = some (savedVal p)
      simp [lookupJson]
    · show lookupJson ((q.key, savedVal q) :: saveJson rest) p.key
        = some (savedVal p)
      by_cases hk : strLower q.key = strLower p.key
      · exact absurd (List.mem_map.mpr ⟨p, hp', hk.symm⟩) hnd.1
      · simp only [lookupJson, if_neg hk]
        exact ih hnd.2 p hp'

/-- `fmtIntOfRat` undoes the cast of an integral JSON number. -/
theorem fmtIntOfRat_intCast (n : Int) :
    fmtIntOfRat ((n : Int) : Rat) = toString n := by
  unfold fmtIntOfRat
  norm_num

/-- C9 (amended): saving then loading reproduces identical key, value and
type for every registered parameter whose stored value is in
save-canonical form — any string value (which fits its buffer by
construction), bool values `"true"`/`"false"`, and int values in
canonical decimal within the C `int` range. (Other reachable values are
re-normalized rather than preserved: int text such as `"007"` reloads as
`"7"`, bool `"1"`/`"0"`/empty reload as `"true"`/`"false"`, float values
are reformatted to two decimals.) Keys must be case-insensitively
distinct, as the data model requires. -/
theorem config_roundtrip (params : List ConfigParam)
    (hkeys : (params.map fun p => strLower p.key).Nodup)
    (hvals : ∀ p ∈ params,
      (p.type = ConfigType.string ∧
        strFit p.value (maxConfigStringLen - 1) = p.value) ∨
      (p.type = ConfigType.bool ∧ (p.value = "true" ∨ p.value = "false")) ∨
      (p.type = ConfigType.int ∧ p.value = toString (atoiModel p.value) ∧
        -2147483648 ≤ atoiModel p.value ∧ atoiModel p.value ≤ 2147483647)) :
    loadConfigParameters params (saveJson params) = params := by
  unfold loadConfigParameters
  apply map_id_of_fixed
  intro p hp
  have hl := lookup_saveJson params hkeys p hp
  have hv := hvals p hp
  unfold loadParamValue
  rw [hl]
  obtain ⟨pk, pl, pt, pv, pd, pr, pmin, pmax, pph⟩ := p
  rcases hv with ⟨ht, hfit⟩ | ⟨ht, hb⟩ | ⟨ht, hcan, _, _⟩ <;>
    simp only at ht <;> subst ht
  · simp only [savedVal]
    simp only at hfit
    rw [hfit]
  · rcases hb with hb | hb <;> simp only at hb <;> subst hb <;> rfl
  · simp only [savedVal, fmtIntOfRat_intCast]
    simp only at hcan
    rw [← hcan]

/-- Witness for the amended C9: the default parameter collection (all
string, int and bool values in canonical form) survives a save/load cycle
unchanged. -/
theorem config_roundtrip_witness :
    loadConfigParameters defaultParams (saveJson defaultParams) =
      defaultParams :=
  config_roundtrip defaultParams (by decide) (by decide)

/-- C9 counterexample: `set_config_parameter` accepts the value `"007"`
for the int parameter `mqtt_port` (full `strtol` parse), but a save/load
cycle re-normalizes it to `"7"` — the round trip does not reproduce an
identical value for every reachable assignment. -/
theorem config_roundtrip_cex :
    (setConfigParameter defaultParams "mqtt_port" "007").2 = none ∧
    loadConfigParameters [port007] (saveJson [port007]) ≠ [port007] ∧
    (loadConfigParameters [port007] (saveJson [port007])).map
        ConfigParam.value = ["7"] := by
  refine ⟨by decide, ?_, by decide⟩
  intro h
  have := congrArg (fun l => l.map ConfigParam.value) h
  simp only at this
  exact absurd this (by decide)

/-- C10: `set_config_parameter` rejects with `ESP_ERR_INVALID_ARG`, and
modifies nothing, when the first parameter matching the key gets a
non-empty value failing its type validation (non-integer text for int,
text not fully parsed by `strtof` for float, anything but
`true`/`false`/`1`/`0` for bool, an over-length string for string) or an
empty value while required; a key matching no parameter yields
`ESP_ERR_NOT_FOUND`; every error leaves the collection unchanged. -/
theorem set_parameter_validation (params : List ConfigParam)
    (key value : String) :
    (findParam params key = none →
      setConfigParameter params key value =
        (params, some ConfigErr.notFound)) ∧
    (∀ p, findParam params key = some p → value ≠ "" →
      validValue p value = false →
      setConfigParameter params key value =
        (params, some ConfigErr.invalidArg)) ∧
    (∀ p, findParam params key = some p → value = "" → p.required = true →
      setConfigParameter params key value =
        (params, some ConfigErr.invalidArg)) ∧
    (∀ e, (setConfigParameter params key value).2 = some e →
      (setConfigParameter params key value).1 = params) := by
  induction params with
  | nil =>
    refine ⟨fun _ => rfl, fun p hp => ?_, fun p hp => ?_, fun e _ => rfl⟩
    · cases hp
    · cases hp
  | cons q rest ih =>
    by_cases hq : q.key = key
    · refine ⟨?_, ?_, ?_, ?_⟩
      · intro h
        rw [findParam, if_pos hq] at h
        cases h
      · intro p hp hne hval
        rw [findParam, if_pos hq] at hp
        cases Option.some.inj hp
        simp only [setConfigParameter, if_pos hq, if_pos hne, hval,
          Bool.false_eq_true, if_false]
      · intro p hp hemp hreq
        rw [findParam, if_pos hq] at hp
        cases Option.some.inj hp
        have hne : ¬ value ≠ "" := fun h => h hemp
        simp only [setConfigParameter, if_pos hq, if_neg hne, hreq, if_true]
      · intro e he
        simp only [setConfigParameter, if_pos hq] at he ⊢
        by_cases hne : value ≠ ""
        · simp only [if_pos hne] at he ⊢
          by_cases hval : validValue q value = true
          · simp [hval] at he
          · simp only [Bool.not_eq_true] at hval
            simp [hval] at he ⊢
        · simp only [if_neg hne] at he ⊢
          by_cases hreq : q.required = true
          · simp [hreq] at he ⊢
          · simp only [Bool.not_eq_true] at hreq
            simp [hreq] at he
    · have hfp : findParam (q :: rest) key = findParam rest key := by
        rw [findParam, if_neg hq]
      have hset : setConfigParameter (q :: rest) key value =
          (q :: (setConfigParameter rest key value).1,
           (setConfigParameter rest key value).2) := by
        simp only [setConfigParameter, if_neg hq]
      refine ⟨?_, ?_, ?_, ?_⟩
      · intro h
        rw [hfp] at h
        rw [hset, ih.1 h]
      · intro p hp hne hval
        rw [hfp] at hp
        rw [hset, ih.2.1 p hp hne hval]
      · intro p hp hemp hreq
        rw [hfp] at hp
        rw [hset, ih.2.2.1 p hp hemp hreq]
      · intro e he
        rw [hset] at he ⊢
        simp only at he ⊢
        rw [ih.2.2.2 e he]

/-- Witness for C10 on the default collection (plus one float parameter):
malformed int, bool, float and over-length string values and an empty
required value are rejected with the collection unchanged; an unknown key
is not found. -/
theorem set_parameter_validation_witness :
    setConfigParameter defaultParams "mqtt_port" "12abc"
      = (defaultParams, some ConfigErr.invalidArg) ∧
    setConfigParameter defaultParams "enable_debug" "maybe"
      = (defaultParams, some ConfigErr.invalidArg) ∧
    setConfigParameter defaultParams "mqtt_broker" ""
      = (defaultParams, some ConfigErr.invalidArg) ∧
    setConfigParameter defaultParams "mqtt_broker"
        (String.mk (List.replicate 128 'a'))
      = (defaultParams, some ConfigErr.invalidArg) ∧
    setConfigParameter defaultParams "no_such_key" "x"
      = (defaultParams, some ConfigErr.notFound) ∧
    setConfigParameter
        (addConfigParameter defaultParams "temp_offset" "Temperature Offset"
          ConfigType.float "0.0" true "0.0") "temp_offset" "not-a-number"
      = (addConfigParameter defaultParams "temp_offset" "Temperature Offset"
          ConfigType.float "0.0" true "0.0", some ConfigErr.invalidArg) := by
  refine ⟨?_, ?_, ?_, ?_, ?_, ?_⟩
  · exact (set_parameter_validation defaultParams "mqtt_port" "12abc").2.1
      { key := "mqtt_port", label := "MQTT Port", type := ConfigType.int,
        value := "1883", default_value := "1883", required := true,
        min_length := 1, max_length := 10, placeholder := "1883" }
      (by decide) (by decide) (by decide)
  · exact (set_parameter_validation defaultParams "enable_debug" "maybe").2.1
      { key := "enable_debug", label := "Enable Debug Logging",
        type := ConfigType.bool, value := "false",
        default_value := "false", required := false,
        min_length := 0, max_length := 5, placeholder := "" }
      (by decide) (by decide) (by decide)
  · exact (set_parameter_validation defaultParams "mqtt_broker" "").2.2.1
      { key := "mqtt_broker", label := "MQTT Broker",
        type := ConfigType.string, value := "broker.mqtt.cool",
        default_value := "broker.mqtt.cool", required := true,
        min_length := 1, max_length := 127,
        placeholder := "mqtt.example.com" }
      (by decide) (by decide) (by decide)
  · exact (set_parameter_validation defaultParams "mqtt_broker"
        (String.mk (List.replicate 128 'a'))).2.1
      { key := "mqtt_broker", label := "MQTT Broker",
        type := ConfigType.string, value := "broker.mqtt.cool",
        default_value := "broker.mqtt.cool", required := true,
        min_length := 1, max_length := 127,
        placeholder := "mqtt.example.com" }
      (by decide) (by decide) (by decide)
  · exact (set_parameter_validation defaultParams "no_such_key" "x").1
      (by decide)
  · exact (set_parameter_validation
        (addConfigParameter defaultParams "temp_offset" "Temperature Offset"
          ConfigType.float "0.0" true "0.0") "temp_offset" "not-a-number").2.1
      { key := "temp_offset", label := "Temperature Offset",
        type := ConfigType.float, value := "0.0",
        default_value := "0.0", required := true,
        min_length := 1, max_length := 15, placeholder := "0.0" }
      (by decide) (by decide) (by decide)

end WifiMgr
